import Mathlib

/-!
Verification of the Dynamic-Pod-Lifecycle control plane (Gateway, Lifecycle
Worker, Reaper) against its specification.

Shallow embedding conventions:
* A Redis session hash (key `session:<user_id>`) is a `Session`: each hash
  field is an `Option`, and the all-`none` record stands for an absent key
  (`hgetall` of a missing key returns the empty mapping, so every
  `.get(field)` yields `None`).
* External collaborators (the Kubernetes API, RabbitMQ, the upstream pod)
  are oracles: their responses are explicit inputs of the embedded
  functions, and each function returns the session record as the component
  left it plus flags recording which external calls it made.
* Wall-clock time is an explicit integer parameter (`int(time.time())` in
  the source); the Gateway long-poll (90 s deadline, 500 ms sleep) is
  modelled by its iteration count, 90 / 0.5 = 180 polls.
-/

/-- One Redis session hash. `status`, `ip`, `last_active` are the three
fields written by the system; a field is `none` when absent. The all-`none`
value models a deleted / never-created key. `last_active` is stored as
`int(time.time())`, modelled as `Int`. -/
structure Session where
  status : Option String
  ip : Option String
  last_active : Option Int
  deriving Repr, DecidableEq

/-- `hgetall` on a missing key returns `{}`: every field reads as `none`.
`redis_conn.delete(key)` brings the record back to this value. -/
def Session.absent : Session := ⟨none, none, none⟩

/-! ## Sanitization (worker.py `sanitize_k8s_name`, reaper.py inline copy) -/

/-- `[a-z0-9]` membership, the characters the regex `[^a-z0-9]` leaves
alone. -/
def isSafeChar (c : Char) : Bool :=
  decide ((97 ≤ c.toNat ∧ c.toNat ≤ 122) ∨ (48 ≤ c.toNat ∧ c.toNat ≤ 57))

/-- The common core of both sanitizers:
`re.sub(r'[^a-z0-9]', '-', text.lower()).strip('-')`.
Python `str.lower` is per-character on ASCII, matching `Char.toLower`;
`strip('-')` removes every leading and trailing `'-'`. -/
def sanitizeCore (s : String) : String :=
  let mapped := s.data.map fun c =>
    let d := c.toLower
    if isSafeChar d then d else '-'
  ⟨(((mapped.dropWhile (· == '-')).reverse.dropWhile (· == '-')).reverse)⟩

/-- worker.py lines 27-31: core sanitization, then
`return safe_text if safe_text else "anonymous"`. -/
def sanitize_k8s_name (s : String) : String :=
  let t := sanitizeCore s
  if t = "" then "anonymous" else t

/-- worker.py line 75: the pod name the Worker creates and watches. -/
def workerPodName (uid : String) : String := "session-" ++ sanitize_k8s_name uid

/-- reaper.py lines 71-72: the pod name the Reaper deletes. Its inline
sanitization `re.sub(r'[^a-z0-9]', '-', user_id.lower()).strip('-')` has no
`"anonymous"` fallback for the empty result. -/
def reaperPodName (uid : String) : String := "session-" ++ sanitizeCore uid

/-! ## Reaper per-record step (reaper.py lines 53-96) -/

/-- Outcome of `k8s_api.delete_namespaced_pod`: success, an `ApiException`
with an HTTP status code, or any other exception. -/
inductive PodDelete
  | deleted
  | apiErr (code : Nat)
  | otherErr
  deriving Repr, DecidableEq

/-- Idle timeout, reaper.py line 13 (`IDLE_TIMEOUT_SECONDS = 600`). -/
def IDLE_TIMEOUT_SECONDS : Int := 600

/-- What one Reaper tick did with one scanned record. -/
structure ReapOut where
  podDeleteCalled : Bool
  recordDeleted : Bool
  deriving Repr, DecidableEq

/-- reaper.py lines 53-96, the body of the per-key loop.
`hget(key, "last_active")` is `la` (`none` when the field is absent, which
Python sees as falsy and skips via `continue`). When present, the record is
reaped iff `current_time - last_active > IDLE_TIMEOUT_SECONDS` (strict).
The pod delete is attempted first; `ApiException` with status 404 falls
through to the record delete, any other `ApiException` hits `continue`, and
a non-`ApiException` error lands in the per-key `except`, skipping the
record delete either way. -/
def reaperProcess (now : Int) (la : Option Int) (podDel : PodDelete) : ReapOut :=
  match la with
  | none => ⟨false, false⟩
  | some t =>
    if now - t > IDLE_TIMEOUT_SECONDS then
      match podDel with
      | .deleted => ⟨true, true⟩
      | .apiErr code => if code = 404 then ⟨true, true⟩ else ⟨true, false⟩
      | .otherErr => ⟨true, false⟩
    else ⟨false, false⟩

/-! ## Lifecycle Worker (worker.py `on_message_callback`, lines 65-101) -/

/-- A delivered queue message body, after the decoding stages of the
callback. `invalidJson` : `json.loads(body)` raises; `nonObject` : the
decoded value is not an object so `data.get("id")` raises; `obj id` : an
object whose `id` field is the given string, or `none` when the field is
missing. (A non-string truthy `id` is outside the claims considered here;
it raises at `user_id.lower()` before any store or orchestrator call.) -/
inductive MsgBody
  | invalidJson
  | nonObject
  | obj (id : Option String)
  deriving Repr, DecidableEq

/-- Result of `k8s_api.read_namespaced_pod`: a pod with its `status.phase`
and `status.pod_ip` (the Python client reports an unset `podIP` as `None`),
or an `ApiException` carrying an HTTP status code (404 = not found). -/
inductive ReadPod
  | found (phase : String) (podIp : Option String)
  | apiErr (code : Nat)
  deriving Repr, DecidableEq

/-- Result of `k8s_api.create_namespaced_pod`: success, an `ApiException`
with reason AlreadyExists (HTTP 409), or any other error. -/
inductive CreateRes
  | ok
  | alreadyExists
  | otherErr (code : Nat)
  deriving Repr, DecidableEq

/-- Python truthiness of a pod IP read from the API: `None` and the empty
string are falsy. -/
def truthyIp : Option String → Bool
  | none => false
  | some s => !(s == "")

/-- worker.py lines 53-61 `wait_for_pod_ready`: scan the (60 s bounded)
watch event stream for the first pod report with `phase == "Running"` and a
truthy `pod_ip`, returning that IP; return `None` when the stream ends
without one. Each event is `(phase, pod_ip)`. -/
def wait_for_pod_ready : List (String × Option String) → Option String
  | [] => none
  | (phase, ip) :: rest =>
    if phase = "Running" ∧ truthyIp ip then ip else wait_for_pod_ready rest

/-- The external world as one message-handling pass sees it. -/
structure WEnv where
  readPod : ReadPod
  createRes : CreateRes
  watchEvents : List (String × Option String)
  now : Int

/-- What one `on_message_callback` invocation did: the session record as it
left it (starting from `s`), whether it acked, and which orchestrator calls
it performed. -/
structure WOut where
  sess : Session
  acked : Bool
  readCalled : Bool
  createCalled : Bool
  waited : Bool
  deriving Repr, DecidableEq

/-- worker.py lines 65-101 `on_message_callback`, for the session record
`s` currently stored under `session:<id>`.

Faithfulness notes, keyed to the source:
* any exception — bad JSON, `data.get` on a non-object, an `ApiException`
  escaping the inner handler — lands in the outer `except` (line 98),
  which only logs; the trailing `basic_ack` (line 101) runs on every path,
  so `acked` is always `true`;
* missing or falsy `id` acks early (lines 69-71) with no other effect;
* read finds the pod with `phase == "Running"` (line 84): the callback
  writes `hset mapping {status: ready, ip: pod_ip, last_active: now}` with
  NO check on the IP. When `pod_ip` is `None` the redis client rejects the
  mapping value (DataError) before writing, so nothing is written; an empty
  string is a legal redis value and is written as-is;
* read finds the pod in any other phase: nothing happens;
* read raises 404: `create_namespaced_pod` runs inside the `except` block,
  so any failure there (including AlreadyExists) propagates to the outer
  handler — the watch is NOT entered and nothing is written;
* create succeeds: `wait_for_pod_ready`; a truthy IP ⇒ the atomic
  ready-write, `None` ⇒ `hset status failed` (status field only);
* read raises a non-404 `ApiException`: the inner handler does nothing. -/
def on_message_callback (body : MsgBody) (env : WEnv) (s : Session) : WOut :=
  match body with
  | .invalidJson => ⟨s, true, false, false, false⟩
  | .nonObject => ⟨s, true, false, false, false⟩
  | .obj none => ⟨s, true, false, false, false⟩
  | .obj (some uid) =>
    if uid = "" then ⟨s, true, false, false, false⟩
    else
      match env.readPod with
      | .found phase podIp =>
        if phase = "Running" then
          match podIp with
          | some p => ⟨⟨some "ready", some p, some env.now⟩, true, true, false, false⟩
          | none => ⟨s, true, true, false, false⟩
        else ⟨s, true, true, false, false⟩
      | .apiErr code =>
        if code = 404 then
          match env.createRes with
          | .ok =>
            match wait_for_pod_ready env.watchEvents with
            | some p => ⟨⟨some "ready", some p, some env.now⟩, true, true, true, true⟩
            | none => ⟨{s with status := some "failed"}, true, true, true, true⟩
          | .alreadyExists => ⟨s, true, true, true, false⟩
          | .otherErr _ => ⟨s, true, true, true, false⟩
        else ⟨s, true, true, false, false⟩

/-! ## Gateway (gateway.py `handle_all_requests` / `proxy_request`) -/

/-- Outcome of the proxied upstream call: either the upstream answered
(with some HTTP status) or `httpx` raised a connection / transport error
(`ConnectError` / `RequestError`, gateway.py line 77). -/
inductive Upstream
  | ok (code : Nat)
  | err
  deriving Repr, DecidableEq

/-- A Gateway HTTP response: a streamed upstream response
(`StreamingResponse`, echoing the upstream status), a plain `Response` with
a fixed status code, or the fall-through where the Python handler returns
no `Response` at all (an unknown `status` string in the record). -/
inductive GResp
  | proxied (code : Nat)
  | plain (code : Nat)
  | empty
  deriving Repr, DecidableEq

/-- One handler activation either produced a response or re-entered itself
(`return await handle_all_requests(request, full_path)`). -/
inductive Outcome
  | done (r : GResp)
  | again
  deriving Repr, DecidableEq

/-- The external world as one handler activation sees it. `now` is the
clock value at the `hset last_active` touch points; `publishOk` tells
whether `publish_creation_request` returns or raises; `upstream` is the
proxied call's outcome; `poll i` is the `status` field the i-th long-poll
iteration reads (`hget` on a shared store other components write). -/
structure GEnv where
  now : Int
  publishOk : Bool
  upstream : Upstream
  poll : Nat → Option String

/-- gateway.py lines 58-79 `proxy_request`, reduced to its observable
result: upstream reachable ⇒ stream its response through with its status;
`ConnectError` / `RequestError` ⇒ plain 503 body. -/
def proxyRespond (u : Upstream) : GResp :=
  match u with
  | .ok code => .proxied code
  | .err => .plain 503

/-- The long-poll iteration budget: the loop guard
`while (time.time() - timeout_start) < 90` with a 0.5 s sleep per
iteration admits at most 90 / 0.5 = 180 reads. -/
def LONG_POLL_ITERS : Nat := 180

/-- Result of the long-poll scan: first iteration that read `"ready"`,
first that read `"failed"`, or deadline elapsed. -/
inductive LPRes
  | readyHit (i : Nat)
  | failedHit (i : Nat)
  | elapsed
  deriving Repr, DecidableEq

/-- gateway.py lines 136-147, the polling skeleton of the long-poll loop:
iteration `i` sleeps 500 ms and re-reads `status`; `"ready"` and `"failed"`
exit, anything else (still `"initiating"`, or `None` after a concurrent
delete) continues; exhausting the budget falls out of the loop. -/
def longPollScan (poll : Nat → Option String) : Nat → Nat → LPRes
  | 0, _ => .elapsed
  | fuel + 1, i =>
    if poll i = some "ready" then .readyHit i
    else if poll i = some "failed" then .failedHit i
    else longPollScan poll fuel (i + 1)

/-- What one handler activation produced: its outcome, the session record
as it left it (starting from the observed record `s`, no interleaving),
and the queue messages it published. -/
structure StepOut where
  out : Outcome
  sess : Session
  pubs : List String
  deriving Repr, DecidableEq

/-- gateway.py lines 118-168, one activation of `handle_all_requests`
after the `X-User-ID` extraction, dispatching on the observed record `s`
exactly as the source's if-chain does:

* `"ready"` (lines 123-129): falsy `ip` ⇒ plain 500; else touch
  `last_active` (line 128) and THEN proxy — the touch precedes the proxy
  attempt, so it stands even when the upstream call fails;
* `"initiating"` (lines 132-149): long-poll; on the first `"ready"`
  observation, read `ip`, touch `last_active` (line 143), proxy (the
  freshly read `ip` is passed unchecked; its reachability is `upstream`);
  on the first `"failed"`, plain 500; on elapse, plain 504 with no write;
* `None` (lines 152-162): `hset status initiating`, publish; on publish
  failure `delete(session_key)` and plain 500; on success re-enter;
* `"failed"` (lines 165-168): `delete(session_key)` and re-enter;
* any other string: the Python function falls off the end. -/
def gatewayStep (uid : String) (s : Session) (env : GEnv) : StepOut :=
  if s.status = some "ready" then
    match s.ip with
    | none => ⟨.done (.plain 500), s, []⟩
    | some ip =>
      if ip = "" then ⟨.done (.plain 500), s, []⟩
      else ⟨.done (proxyRespond env.upstream), {s with last_active := some env.now}, []⟩
  else if s.status = some "initiating" then
    match longPollScan env.poll LONG_POLL_ITERS 0 with
    | .readyHit _ => ⟨.done (proxyRespond env.upstream), {s with last_active := some env.now}, []⟩
    | .failedHit _ => ⟨.done (.plain 500), s, []⟩
    | .elapsed => ⟨.done (.plain 504), s, []⟩
  else if s.status = none then
    if env.publishOk then ⟨.again, {s with status := some "initiating"}, [uid]⟩
    else ⟨.done (.plain 500), Session.absent, []⟩
  else if s.status = some "failed" then
    ⟨.again, Session.absent, []⟩
  else ⟨.done .empty, s, []⟩

/-- The whole recursive handler against an arbitrary sequence of
store observations: activation `k` dispatches on `obs k` under environment
`envs k`, and a re-entry moves to activation `k + 1`. The store sequence is
an oracle — this is exactly the claim's frame "every sequence of states
returned by the store" (concurrent writers, anomalies). `fuel` bounds the
activations we are willing to unfold; `none` means the handler was still
re-entering when the bound ran out. -/
def handleObs (uid : String) (obs : Nat → Session) (envs : Nat → GEnv) :
    Nat → Nat → Option GResp
  | 0, _ => none
  | fuel + 1, k =>
    match gatewayStep uid (obs k) (envs k) with
    | ⟨.done r, _, _⟩ => some r
    | ⟨.again, _, _⟩ => handleObs uid obs envs fuel (k + 1)

/-! ## Helper lemmas -/

/-- The watch helper only ever returns a truthy (hence non-empty) IP. -/
lemma wait_for_pod_ready_ne_empty :
    ∀ evs p, wait_for_pod_ready evs = some p → p ≠ "" := by
  intro evs
  induction evs with
  | nil => intro p h; cases h
  | cons e rest ih =>
    intro p h
    obtain ⟨phase, ip⟩ := e
    by_cases hc : phase = "Running" ∧ truthyIp ip
    · rw [wait_for_pod_ready, if_pos hc] at h
      cases ip with
      | none => cases h
      | some q =>
        cases h
        have ht := hc.2
        simpa [truthyIp] using ht
    · rw [wait_for_pod_ready, if_neg hc] at h
      exact ih p h

/-- If no poll in the budget reads `"ready"` or `"failed"`, the scan
elapses. -/
lemma longPollScan_elapsed (poll : Nat → Option String) :
    ∀ fuel i,
      (∀ k, k < fuel → poll (i + k) ≠ some "ready" ∧ poll (i + k) ≠ some "failed") →
      longPollScan poll fuel i = .elapsed := by
  intro fuel
  induction fuel with
  | zero => intro i _; rfl
  | succ m ih =>
    intro i h
    have h0 := h 0 (Nat.succ_pos m)
    rw [longPollScan, if_neg (by simpa using h0.1), if_neg (by simpa using h0.2)]
    exact ih (i + 1) fun k hk => by
      have hk1 := h (k + 1) (Nat.succ_lt_succ hk)
      rwa [show i + (k + 1) = i + 1 + k from by omega] at hk1

/-- The scan stops at the first `"ready"` observation. -/
lemma longPollScan_ready_first (poll : Nat → Option String) :
    ∀ j fuel i, j < fuel →
      (∀ k, k < j → poll (i + k) ≠ some "ready" ∧ poll (i + k) ≠ some "failed") →
      poll (i + j) = some "ready" →
      longPollScan poll fuel i = .readyHit (i + j) := by
  intro j
  induction j with
  | zero =>
    intro fuel i hj _ hr
    obtain ⟨m, rfl⟩ : ∃ m, fuel = m + 1 := ⟨fuel - 1, by omega⟩
    rw [longPollScan, if_pos (by simpa using hr), Nat.add_zero]
  | succ n ih =>
    intro fuel i hj hpre hr
    obtain ⟨m, rfl⟩ : ∃ m, fuel = m + 1 := ⟨fuel - 1, by omega⟩
    have h0 := hpre 0 (Nat.succ_pos n)
    rw [longPollScan, if_neg (by simpa using h0.1), if_neg (by simpa using h0.2)]
    have hrec := ih m (i + 1) (by omega)
      (fun k hk => by
        have hk1 := hpre (k + 1) (Nat.succ_lt_succ hk)
        rwa [show i + (k + 1) = i + 1 + k from by omega] at hk1)
      (by rwa [show i + (n + 1) = i + 1 + n from by omega] at hr)
    rw [hrec, show i + 1 + n = i + (n + 1) from by omega]

/-- The scan stops at the first `"failed"` observation. -/
lemma longPollScan_failed_first (poll : Nat → Option String) :
    ∀ j fuel i, j < fuel →
      (∀ k, k < j → poll (i + k) ≠ some "ready" ∧ poll (i + k) ≠ some "failed") →
      poll (i + j) = some "failed" →
      longPollScan poll fuel i = .failedHit (i + j) := by
  intro j
  induction j with
  | zero =>
    intro fuel i hj _ hr
    obtain ⟨m, rfl⟩ : ∃ m, fuel = m + 1 := ⟨fuel - 1, by omega⟩
    have hne : poll i ≠ some "ready" := by
      rw [show i = i + 0 from (Nat.add_zero i).symm, hr]; simp
    rw [longPollScan, if_neg hne, if_pos (by simpa using hr), Nat.add_zero]
  | succ n ih =>
    intro fuel i hj hpre hr
    obtain ⟨m, rfl⟩ : ∃ m, fuel = m + 1 := ⟨fuel - 1, by omega⟩
    have h0 := hpre 0 (Nat.succ_pos n)
    rw [longPollScan, if_neg (by simpa using h0.1), if_neg (by simpa using h0.2)]
    have hrec := ih m (i + 1) (by omega)
      (fun k hk => by
        have hk1 := hpre (k + 1) (Nat.succ_lt_succ hk)
        rwa [show i + (k + 1) = i + 1 + k from by omega] at hk1)
      (by rwa [show i + (n + 1) = i + 1 + n from by omega] at hr)
    rw [hrec, show i + 1 + n = i + (n + 1) from by omega]

/-! ## Claim theorems -/

/-- Claim C1, counterexample. A request observing a `ready` record with the
non-empty address `10.0.0.1` and `last_active = 0`, handled at time 100
while the upstream refuses connections: the Gateway does respond 503, but
the record is NOT left unchanged — `last_active` was touched (gateway.py
line 128) before the failing proxy attempt, so it no longer holds the
value it held at request start. -/
theorem c1_counterexample :
    (gatewayStep "alice" ⟨some "ready", some "10.0.0.1", some 0⟩
        ⟨100, true, .err, fun _ => none⟩).out = .done (.plain 503) ∧
    (gatewayStep "alice" ⟨some "ready", some "10.0.0.1", some 0⟩
        ⟨100, true, .err, fun _ => none⟩).sess.last_active ≠
      (Session.mk (some "ready") (some "10.0.0.1") (some 0)).last_active :=
  ⟨rfl, by decide⟩

/-- Claim C1, amended. For every request whose session is observed `ready`
with a non-empty address, if the proxied upstream call fails with a
connection or transport error, the Gateway responds 503 and the `status`
and `addr` fields are unchanged; `last_active`, however, is updated to the
handling time before the proxy attempt, so it need not hold the value it
held at request start. -/
theorem c1_amended (uid : String) (s : Session) (env : GEnv) (p : String)
    (hst : s.status = some "ready") (hip : s.ip = some p) (hp : p ≠ "")
    (hu : env.upstream = .err) :
    gatewayStep uid s env =
      ⟨.done (.plain 503), {s with last_active := some env.now}, []⟩ := by
  simp [gatewayStep, hst, hip, hp, proxyRespond, hu]

/-- Claim C1, witness for the amended theorem at a concrete input. -/
theorem c1_amended_witness :
    gatewayStep "alice" ⟨some "ready", some "10.0.0.1", some 0⟩
        ⟨100, true, .err, fun _ => none⟩ =
      ⟨.done (.plain 503), ⟨some "ready", some "10.0.0.1", some 100⟩, []⟩ :=
  c1_amended "alice" ⟨some "ready", some "10.0.0.1", some 0⟩
    ⟨100, true, .err, fun _ => none⟩ "10.0.0.1" rfl rfl (by decide) rfl

/-- Claim C3. For the identity `"!!!"` (sanitized core empty) the Worker
computes `session-anonymous` (worker.py `sanitize_k8s_name` falls back to
`"anonymous"`) while the Reaper's inline sanitization (reaper.py line 71)
has no such fallback and computes `session-`: the two pod names are not
byte-identical, so the Reaper deletes a different name than the Worker
created and the sandbox leaks. -/
theorem c3_sanitizer_divergence :
    workerPodName "!!!" = "session-anonymous" ∧
    reaperPodName "!!!" = "session-" ∧
    workerPodName "!!!" ≠ reaperPodName "!!!" :=
  ⟨by decide, by decide, by decide⟩

/-- Claim C7. Whenever the Reaper deletes a session record, the
immediately preceding pod delete for that record returned success or a 404
`ApiException`; every other pod-delete error skips the record deletion in
that tick (reaper.py lines 84-92). -/
theorem c7_record_delete_guard (now : Int) (la : Option Int) (pd : PodDelete)
    (h : (reaperProcess now la pd).recordDeleted = true) :
    pd = .deleted ∨ pd = .apiErr 404 := by
  cases la with
  | none => simp [reaperProcess] at h
  | some t =>
    by_cases hidle : now - t > IDLE_TIMEOUT_SECONDS
    · cases pd with
      | deleted => exact Or.inl rfl
      | apiErr code =>
        by_cases hc : code = 404
        · exact Or.inr (by rw [hc])
        · simp [reaperProcess, hidle, hc] at h
      | otherErr => simp [reaperProcess, hidle] at h
    · simp [reaperProcess, hidle] at h

/-- Claim C7, witness: at `now = 1000`, `last_active = 0`, pod delete
succeeding, the record is deleted and the theorem applies. -/
theorem c7_record_delete_guard_witness :
    PodDelete.deleted = PodDelete.deleted ∨
      PodDelete.deleted = PodDelete.apiErr 404 :=
  c7_record_delete_guard 1000 (some 0) .deleted (by decide)

/-- Claim C9. On a Reaper tick, a scanned record with no `last_active`
field is skipped (no pod delete is even attempted), and the eviction path
is entered exactly when `now - last_active` strictly exceeds the 600 s
idle timeout (reaper.py lines 55-64). -/
theorem c9_reap_trigger (now : Int) (la : Option Int) (pd : PodDelete) :
    (reaperProcess now la pd).podDeleteCalled = true ↔
      ∃ t, la = some t ∧ now - t > (600 : Int) := by
  cases la with
  | none => simp [reaperProcess]
  | some t =>
    by_cases hidle : now - t > (600 : Int)
    · cases pd with
      | deleted => simp [reaperProcess, IDLE_TIMEOUT_SECONDS, hidle]
      | apiErr code =>
        by_cases hc : code = 404 <;>
          simp [reaperProcess, IDLE_TIMEOUT_SECONDS, hidle, hc]
      | otherErr => simp [reaperProcess, IDLE_TIMEOUT_SECONDS, hidle]
    · simp [reaperProcess, IDLE_TIMEOUT_SECONDS, hidle]

/-- Claim C10. A delivered message whose body is not valid JSON, decodes
to a non-object, or decodes to an object with a missing or empty `id`
field is acked with no session-store write and no orchestrator call
(worker.py lines 66-71, 98-101). -/
theorem c10_malformed_acked (env : WEnv) (s : Session) :
    on_message_callback .invalidJson env s = ⟨s, true, false, false, false⟩ ∧
    on_message_callback .nonObject env s = ⟨s, true, false, false, false⟩ ∧
    on_message_callback (.obj none) env s = ⟨s, true, false, false, false⟩ ∧
    on_message_callback (.obj (some "")) env s = ⟨s, true, false, false, false⟩ := by
  refine ⟨rfl, rfl, rfl, ?_⟩
  simp [on_message_callback]

/-- Claim C2, counterexample. The Worker's handling of an already-existing
`Running` pod (worker.py lines 83-85) copies the reported pod IP into the
`ready` write without a non-emptiness check: when the orchestrator reports
a Running pod with the empty-string address, the Worker writes
`status = ready` with an empty `addr` in the same atomic write, violating
the invariant. -/
theorem c2_counterexample :
    (on_message_callback (.obj (some "bob"))
        ⟨.found "Running" (some ""), .ok, [], 50⟩
        ⟨some "initiating", none, none⟩).sess =
      ⟨some "ready", some "", some 50⟩ := rfl

/-- Claim C2, amended. The fresh-create path preserves the invariant: a
`ready` record it writes always carries a non-empty address, because the
watch only returns a truthy IP. The already-existing-`Running` path writes
the pod's reported address verbatim, with no non-emptiness check, so the
invariant holds there only if the orchestrator never reports a Running pod
with an empty-string address. -/
theorem c2_amended (uid : String) (env : WEnv) (s : Session) (huid : uid ≠ "") :
    (env.readPod = .apiErr 404 → env.createRes = .ok →
      (on_message_callback (.obj (some uid)) env s).sess.status = some "ready" →
      ∃ p, (on_message_callback (.obj (some uid)) env s).sess.ip = some p ∧ p ≠ "")
    ∧ (∀ phase p, env.readPod = .found phase (some p) → phase = "Running" →
      (on_message_callback (.obj (some uid)) env s).sess =
        ⟨some "ready", some p, some env.now⟩) := by
  constructor
  · intro hread hcr hready
    cases hw : wait_for_pod_ready env.watchEvents with
    | none => simp [on_message_callback, huid, hread, hcr, hw] at hready
    | some p =>
      refine ⟨p, ?_, wait_for_pod_ready_ne_empty _ p hw⟩
      simp [on_message_callback, huid, hread, hcr, hw]
  · intro phase p hread hph
    subst hph
    simp [on_message_callback, huid, hread]

/-- Claim C2, witness for the amended theorem: both conjuncts at concrete
inputs (an existing Running pod with IP `10.0.0.2`; a fresh create whose
watch reports `10.0.0.1` at its second event). -/
theorem c2_amended_witness :
    (on_message_callback (.obj (some "bob"))
        ⟨.found "Running" (some "10.0.0.2"), .ok, [], 9⟩
        ⟨some "initiating", none, none⟩).sess =
      ⟨some "ready", some "10.0.0.2", some 9⟩ ∧
    ∃ p, (on_message_callback (.obj (some "bob"))
        ⟨.apiErr 404, .ok, [("Pending", none), ("Running", some "10.0.0.1")], 7⟩
        ⟨some "initiating", none, none⟩).sess.ip = some p ∧ p ≠ "" :=
  ⟨(c2_amended "bob" ⟨.found "Running" (some "10.0.0.2"), .ok, [], 9⟩
      ⟨some "initiating", none, none⟩ (by decide)).2 "Running" "10.0.0.2" rfl rfl,
   (c2_amended "bob" ⟨.apiErr 404, .ok, [("Pending", none), ("Running", some "10.0.0.1")], 7⟩
      ⟨some "initiating", none, none⟩ (by decide)).1 rfl rfl (by decide)⟩

/-- Claim C4, counterexample. Against a store whose every read reports
`status = failed` (the handler's own delete is never reflected — e.g. a
concurrent writer keeps re-creating the record), the handler is still
re-entering after 3 activations: its self-re-entry depth is not bounded by
2. -/
theorem c4_counterexample :
    handleObs "u" (fun _ => ⟨some "failed", none, none⟩)
      (fun _ => ⟨0, true, .err, fun _ => none⟩) 3 0 = none := rfl

/-- Claim C4, amended. Each activation performs at most one transition
(absent→initiating+publish, or failed→delete) before re-entering, but the
re-entry (gateway.py lines 162 and 168) carries no depth counter: for the
store-observation sequence that constantly reports `failed`, the handler
re-enters beyond every finite bound and never terminates. -/
theorem c4_amended (uid : String) :
    ∀ fuel k, handleObs uid (fun _ => ⟨some "failed", none, none⟩)
      (fun _ => ⟨0, true, .err, fun _ => none⟩) fuel k = none := by
  intro fuel
  induction fuel with
  | zero => intro k; rfl
  | succ m ih => intro k; exact ih (k + 1)

/-- Claim C5, counterexample. Read raises 404, create raises AlreadyExists
(a concurrent worker won the race), and the watch stream would immediately
deliver a Running pod with IP `10.0.0.1`: the Worker nevertheless never
enters the watch (`waited = false`) and leaves the session `initiating` —
the already-exists signal is not treated as success. -/
theorem c5_counterexample :
    (on_message_callback (.obj (some "bob"))
        ⟨.apiErr 404, .alreadyExists, [("Running", some "10.0.0.1")], 7⟩
        ⟨some "initiating", none, none⟩).waited = false ∧
    (on_message_callback (.obj (some "bob"))
        ⟨.apiErr 404, .alreadyExists, [("Running", some "10.0.0.1")], 7⟩
        ⟨some "initiating", none, none⟩).sess.status = some "initiating" ∧
    wait_for_pod_ready [("Running", some "10.0.0.1")] = some "10.0.0.1" :=
  ⟨rfl, rfl, by decide⟩

/-- Claim C5, amended. When `create_namespaced_pod` fails with an
already-exists signal, the exception escapes the `except` block it was
raised in (worker.py lines 86-89) to the outer handler, which logs and
acks: the watch is never entered, no store write happens, and the session
is left `initiating` (to time out via the Gateway's long-poll path). -/
theorem c5_amended (uid : String) (env : WEnv) (s : Session)
    (huid : uid ≠ "") (hread : env.readPod = .apiErr 404)
    (hcr : env.createRes = .alreadyExists) :
    on_message_callback (.obj (some uid)) env s = ⟨s, true, true, true, false⟩ := by
  simp [on_message_callback, huid, hread, hcr]

/-- Claim C5, witness for the amended theorem at a concrete input. -/
theorem c5_amended_witness :
    on_message_callback (.obj (some "carol")) ⟨.apiErr 404, .alreadyExists, [], 3⟩
        ⟨some "initiating", none, none⟩ =
      ⟨⟨some "initiating", none, none⟩, true, true, true, false⟩ :=
  c5_amended "carol" ⟨.apiErr 404, .alreadyExists, [], 3⟩
    ⟨some "initiating", none, none⟩ (by decide) rfl rfl

/-- Claim C6. A request observing `initiating` enters the long-poll loop —
at most 90 s of 500 ms sleeps, i.e. at most `LONG_POLL_ITERS = 180` status
re-reads: if every read in the budget sees neither `ready` nor `failed`
the Gateway responds 504 (writing nothing); on the first `failed` it
responds 500; on the first `ready` it touches `last_active` and proxies
(echoing the upstream, or 503 if the upstream errors). -/
theorem c6_long_poll (uid : String) (s : Session) (env : GEnv)
    (hs : s.status = some "initiating") :
    ((∀ i, i < LONG_POLL_ITERS → env.poll i ≠ some "ready" ∧ env.poll i ≠ some "failed") →
      gatewayStep uid s env = ⟨.done (.plain 504), s, []⟩)
    ∧ (∀ j, j < LONG_POLL_ITERS → env.poll j = some "failed" →
        (∀ i, i < j → env.poll i ≠ some "ready" ∧ env.poll i ≠ some "failed") →
        gatewayStep uid s env = ⟨.done (.plain 500), s, []⟩)
    ∧ (∀ j, j < LONG_POLL_ITERS → env.poll j = some "ready" →
        (∀ i, i < j → env.poll i ≠ some "ready" ∧ env.poll i ≠ some "failed") →
        gatewayStep uid s env = ⟨.done (proxyRespond env.upstream),
          {s with last_active := some env.now}, []⟩) := by
  refine ⟨fun h => ?_, fun j hj hr hpre => ?_, fun j hj hr hpre => ?_⟩
  · have hscan := longPollScan_elapsed env.poll LONG_POLL_ITERS 0
      (fun k hk => by simpa using h k hk)
    simp [gatewayStep, hs, hscan]
  · have hscan := longPollScan_failed_first env.poll j LONG_POLL_ITERS 0 hj
      (fun k hk => by simpa using hpre k hk) (by simpa using hr)
    simp [gatewayStep, hs, hscan]
  · have hscan := longPollScan_ready_first env.poll j LONG_POLL_ITERS 0 hj
      (fun k hk => by simpa using hpre k hk) (by simpa using hr)
    simp [gatewayStep, hs, hscan]

/-- Claim C6, witness: a record observed `initiating` whose first poll
already reads `ready`, with the upstream answering 200 — the handler
touches `last_active` to the handling time 5 and streams the upstream
response. -/
theorem c6_long_poll_witness :
    gatewayStep "u" ⟨some "initiating", none, none⟩
        ⟨5, true, .ok 200, fun i => if i = 0 then some "ready" else none⟩ =
      ⟨.done (.proxied 200), ⟨some "initiating", none, some 5⟩, []⟩ :=
  (c6_long_poll "u" ⟨some "initiating", none, none⟩
      ⟨5, true, .ok 200, fun i => if i = 0 then some "ready" else none⟩ rfl).2.2
    0 (by decide) rfl (fun i hi => absurd hi (Nat.not_lt_zero i))

/-- Claim C8. When the Gateway observes an absent session (empty hash), it
writes `status = initiating`; if the publish succeeds the message `{id}`
has been queued and the handler re-enters, and if the publish fails the
handler deletes the key — restoring the store to its pre-request absent
state — and responds 500 (gateway.py lines 152-162). -/
theorem c8_publish_rollback (uid : String) (env : GEnv) :
    (env.publishOk = true →
      gatewayStep uid Session.absent env =
        ⟨.again, ⟨some "initiating", none, none⟩, [uid]⟩)
    ∧ (env.publishOk = false →
      gatewayStep uid Session.absent env =
        ⟨.done (.plain 500), Session.absent, []⟩) := by
  constructor <;> intro h <;> simp [gatewayStep, Session.absent, h]

/-- Claim C8, witness: both publish outcomes at concrete inputs. -/
theorem c8_publish_rollback_witness :
    gatewayStep "alice" Session.absent ⟨3, true, .err, fun _ => none⟩ =
      ⟨.again, ⟨some "initiating", none, none⟩, ["alice"]⟩ ∧
    gatewayStep "alice" Session.absent ⟨3, false, .err, fun _ => none⟩ =
      ⟨.done (.plain 500), Session.absent, []⟩ :=
  ⟨(c8_publish_rollback "alice" ⟨3, true, .err, fun _ => none⟩).1 rfl,
   (c8_publish_rollback "alice" ⟨3, false, .err, fun _ => none⟩).2 rfl⟩
